import Mathlib

/-!
Shallow embedding of the weread2notion-pro core (cookiecloud_client.py,
weread_api.py, weread_api_v2.py) and proofs about the spec's claims.

Python values of the JSON kind are embedded as `JVal`; Python exceptions are
embedded as the `PyErr` type carried in `Except`.  Machine-level helpers that
the source delegates to the Python standard library (md5, base64, json,
utf-8) are implemented executably below, faithful to CPython's behaviour on
the inputs the claims exercise.
-/

/-- Python exception values, distinguished by kind and message. -/
inductive PyErr where
  | exception (msg : String)
  | importError (msg : String)
  | attributeError (msg : String)
  | keyError (msg : String)
  | typeError (msg : String)
  | indexError (msg : String)

/-- Lowercase hexadecimal digit character for a value below 16. -/
def hexDigitChar (n : Nat) : Char :=
  if n < 10 then Char.ofNat (48 + n) else Char.ofNat (87 + n)

/-- Hex digits of `n` (most significant first), empty for 0; `fuel` bounds recursion. -/
def natToHexGo : Nat → Nat → List Char
  | 0, _ => []
  | fuel + 1, n => if n = 0 then [] else natToHexGo fuel (n / 16) ++ [hexDigitChar (n % 16)]

/-- Python `format(n, "x")`: lowercase hex without leading zeros, `"0"` for zero. -/
def natToHex (n : Nat) : String :=
  if n = 0 then "0" else ⟨natToHexGo (n + 1) n⟩

/-- Python `int()` on a nonempty string of ASCII decimal digits. -/
def decToNat (cs : List Char) : Nat :=
  cs.foldl (fun a c => a * 10 + (c.toNat - 48)) 0

/-- The ASCII decimal digits `0`-`9`: the characters the source's regex
`\d` matches on ASCII input.  (On non-ASCII input Python's `\d` also
matches other Unicode decimal digits; theorems about the digit-branch test
therefore restrict to ASCII strings, where this class is exact.) -/
def isPyDigit (c : Char) : Bool :=
  48 ≤ c.toNat && c.toNat ≤ 57

/-- The ASCII whitespace characters stripped by Python `int()` (only a
trailing newline can reach the digit branch below). -/
def isPyWs (c : Char) : Bool :=
  c == ' ' || c == '\t' || c == '\n' || c == '\r' ||
    c == Char.ofNat 11 || c == Char.ofNat 12

/-- Python `int()` on one slice of the digit branch: surrounding whitespace
is stripped before the decimal digits are parsed.  (`int()` raises on a
slice containing no digit at all - a path no theorem below reaches, since
it needs a bookId of length 1 mod 9 whose final slice is just the trailing
newline.) -/
def pyIntChunk (cs : List Char) : Nat :=
  decToNat (((cs.dropWhile isPyWs).reverse.dropWhile isPyWs).reverse)

/-- Truthiness of the source's `re.match("^\d*$", book_id)` over ASCII
strings: every character is a digit, or every character except a single
trailing newline is one (`$` also matches just before a final newline). -/
def reMatchDigits (cs : List Char) : Bool :=
  cs.all isPyDigit ||
    (match cs.getLast? with
     | some c => c == '\n' && cs.dropLast.all isPyDigit
     | none => false)

/-- UTF-8 encoding of one character (Python `str.encode("utf-8")`, per char). -/
def utf8EncodeChar (c : Char) : List Nat :=
  let n := c.toNat
  if n < 0x80 then [n]
  else if n < 0x800 then [0xC0 + n / 64, 0x80 + n % 64]
  else if n < 0x10000 then [0xE0 + n / 4096, 0x80 + n / 64 % 64, 0x80 + n % 64]
  else [0xF0 + n / 262144, 0x80 + n / 4096 % 64, 0x80 + n / 64 % 64, 0x80 + n % 64]

/-- UTF-8 bytes of a string (Python `s.encode("utf-8")`). -/
def utf8Bytes (s : String) : List Nat :=
  s.data.foldr (fun c acc => utf8EncodeChar c ++ acc) []

/-! ### MD5 (hashlib.md5), executable, over byte lists -/

/-- 2^32, the word modulus of MD5 arithmetic. -/
def w32 : Nat := 4294967296

/-- Addition modulo 2^32. -/
def add32 (a b : Nat) : Nat := (a + b) % w32

/-- Bitwise NOT on a 32-bit word. -/
def not32 (a : Nat) : Nat := 4294967295 - a % w32

/-- Left rotation of a 32-bit word by `s` bits. -/
def rotl32 (a s : Nat) : Nat :=
  ((a % w32) * 2 ^ s + (a % w32) / 2 ^ (32 - s)) % w32

/-- The 64 MD5 sine-derived constants. -/
def md5K : List Nat :=
  [0xd76aa478, 0xe8c7b756, 0x242070db, 0xc1bdceee,
   0xf57c0faf, 0x4787c62a, 0xa8304613, 0xfd469501,
   0x698098d8, 0x8b44f7af, 0xffff5bb1, 0x895cd7be,
   0x6b901122, 0xfd987193, 0xa679438e, 0x49b40821,
   0xf61e2562, 0xc040b340, 0x265e5a51, 0xe9b6c7aa,
   0xd62f105d, 0x02441453, 0xd8a1e681, 0xe7d3fbc8,
   0x21e1cde6, 0xc33707d6, 0xf4d50d87, 0x455a14ed,
   0xa9e3e905, 0xfcefa3f8, 0x676f02d9, 0x8d2a4c8a,
   0xfffa3942, 0x8771f681, 0x6d9d6122, 0xfde5380c,
   0xa4beea44, 0x4bdecfa9, 0xf6bb4b60, 0xbebfbc70,
   0x289b7ec6, 0xeaa127fa, 0xd4ef3085, 0x04881d05,
   0xd9d4d039, 0xe6db99e5, 0x1fa27cf8, 0xc4ac5665,
   0xf4292244, 0x432aff97, 0xab9423a7, 0xfc93a039,
   0x655b59c3, 0x8f0ccc92, 0xffeff47d, 0x85845dd1,
   0x6fa87e4f, 0xfe2ce6e0, 0xa3014314, 0x4e0811a1,
   0xf7537e82, 0xbd3af235, 0x2ad7d2bb, 0xeb86d391]

/-- The 64 MD5 per-round shift amounts. -/
def md5S : List Nat :=
  [7, 12, 17, 22, 7, 12, 17, 22, 7, 12, 17, 22, 7, 12, 17, 22,
   5, 9, 14, 20, 5, 9, 14, 20, 5, 9, 14, 20, 5, 9, 14, 20,
   4, 11, 16, 23, 4, 11, 16, 23, 4, 11, 16, 23, 4, 11, 16, 23,
   6, 10, 15, 21, 6, 10, 15, 21, 6, 10, 15, 21, 6, 10, 15, 21]

/-- MD5 round mixing function and message index for round `i`. -/
def md5FG (i b c d : Nat) : Nat × Nat :=
  if i < 16 then (Nat.lor (Nat.land b c) (Nat.land (not32 b) d), i)
  else if i < 32 then (Nat.lor (Nat.land d b) (Nat.land (not32 d) c), (5 * i + 1) % 16)
  else if i < 48 then (Nat.xor (Nat.xor b c) d, (3 * i + 5) % 16)
  else (Nat.xor c (Nat.lor b (not32 d)), (7 * i) % 16)

/-- One MD5 round step: state `(a, b, c, d)`, message words `m`, round `i`. -/
def md5Step (m : List Nat) (st : Nat × Nat × Nat × Nat) (i : Nat) :
    Nat × Nat × Nat × Nat :=
  match st with
  | (a, b, c, d) =>
    let fg := md5FG i b c d
    let f := add32 (add32 (add32 fg.1 a) (md5K.getD i 0)) (m.getD fg.2 0)
    (d, add32 b (rotl32 f (md5S.getD i 0)), b, c)

/-- Run MD5 rounds `i, i+1, ...` for `fuel` rounds. -/
def md5Rounds (m : List Nat) : Nat → Nat → (Nat × Nat × Nat × Nat) → Nat × Nat × Nat × Nat
  | 0, _, st => st
  | fuel + 1, i, st => md5Rounds m fuel (i + 1) (md5Step m st i)

/-- Little-endian 32-bit words from a list of bytes (4 bytes per word). -/
def bytesToWords : List Nat → List Nat
  | b0 :: b1 :: b2 :: b3 :: rest =>
    (b0 + b1 * 256 + b2 * 65536 + b3 * 16777216) :: bytesToWords rest
  | _ => []

/-- Split a byte list into 64-byte chunks; `fuel` bounds recursion. -/
def chunks64 : Nat → List Nat → List (List Nat)
  | 0, _ => []
  | _, [] => []
  | fuel + 1, bs => bs.take 64 :: chunks64 fuel (bs.drop 64)

/-- Process one 64-byte chunk, updating the running MD5 state. -/
def md5Chunk (st : Nat × Nat × Nat × Nat) (chunk : List Nat) : Nat × Nat × Nat × Nat :=
  match st with
  | (a0, b0, c0, d0) =>
    let m := bytesToWords chunk
    match md5Rounds m 64 0 (a0, b0, c0, d0) with
    | (a, b, c, d) => (add32 a0 a, add32 b0 b, add32 c0 c, add32 d0 d)

/-- MD5 padding: append `0x80`, zeros to 56 mod 64, then the 8-byte
little-endian bit length of the message. -/
def md5Pad (bs : List Nat) : List Nat :=
  let bitLen := bs.length * 8
  let padZeros := (119 - bs.length % 64) % 64
  bs ++ [0x80] ++ List.replicate padZeros 0 ++
    [bitLen % 256, bitLen / 256 % 256, bitLen / 65536 % 256,
     bitLen / 16777216 % 256, bitLen / 4294967296 % 256,
     bitLen / 1099511627776 % 256, bitLen / 281474976710656 % 256,
     bitLen / 72057594037927936 % 256]

/-- Little-endian byte serialization of one 32-bit word. -/
def wordLEBytes (w : Nat) : List Nat :=
  [w % 256, w / 256 % 256, w / 65536 % 256, w / 16777216 % 256]

/-- The 16 digest bytes of an MD5 state. -/
def md5DigestBytes (st : Nat × Nat × Nat × Nat) : List Nat :=
  match st with
  | (a, b, c, d) => wordLEBytes a ++ wordLEBytes b ++ wordLEBytes c ++ wordLEBytes d

/-- Two lowercase hex characters for a byte. -/
def byteHex (b : Nat) : String :=
  ⟨[hexDigitChar (b / 16 % 16), hexDigitChar (b % 16)]⟩

/-- Lowercase hex rendering of a byte list. -/
def bytesToHex : List Nat → String
  | [] => ""
  | b :: rest => byteHex b ++ bytesToHex rest

/-- MD5 digest bytes of a byte-list message. -/
def md5Bytes (bs : List Nat) : List Nat :=
  let padded := md5Pad bs
  let st := (chunks64 (padded.length + 1) padded).foldl md5Chunk
    (0x67452301, 0xefcdab89, 0x98badcfe, 0x10325476)
  md5DigestBytes st

/-- `hashlib.md5(s.encode("utf-8")).hexdigest()`. -/
def md5hex (s : String) : String :=
  bytesToHex (md5Bytes (utf8Bytes s))

/-! ### Book identifier transform (weread_api.py, `transform_id` /
`calculate_book_str_id`) -/

/-- Hex of each code point of the characters, concatenated (the `"4"` branch
loop of `transform_id`). -/
def charHexConcat : List Char → String
  | [] => ""
  | c :: cs => natToHex c.toNat ++ charHexConcat cs

/-- The `"3"` branch loop of `transform_id`: take 9-character slices of the
digit string and hex-encode each slice's `int()` value; `fuel` bounds the
loop. -/
def chunkHexGo : Nat → List Char → List String
  | 0, _ => []
  | _, [] => []
  | fuel + 1, cs => natToHex (pyIntChunk (cs.take 9)) :: chunkHexGo fuel (cs.drop 9)

/-- `WeReadApi.transform_id`. -/
def transform_id (book_id : String) : String × List String :=
  if reMatchDigits book_id.data then
    ("3", chunkHexGo book_id.data.length book_id.data)
  else
    ("4", [charHexConcat book_id.data])

/-- The 9-character slices themselves (specification-side decomposition used
to state what `transform_id` chunks). -/
def chunks9Go : Nat → List Char → List (List Char)
  | 0, _ => []
  | _, [] => []
  | fuel + 1, cs => cs.take 9 :: chunks9Go fuel (cs.drop 9)

/-- Consecutive chunks of at most 9 characters of a character list. -/
def chunks9 (cs : List Char) : List (List Char) := chunks9Go cs.length cs

/-- Python slice `s[0:n]`. -/
def strTake (s : String) (n : Nat) : String := ⟨s.data.take n⟩

/-- Python slice `s[-n:]` (for `n` at most the length; otherwise the whole
string, as in Python). -/
def strTakeLast (s : String) (n : Nat) : String := ⟨s.data.drop (s.data.length - n)⟩

/-- The 2-digit zero-padded hex length prefixed to each transformed part in
`calculate_book_str_id`. -/
def partLenHex (p : String) : String :=
  let h := natToHex p.length
  if h.length = 1 then "0" ++ h else h

/-- The part-joining loop of `calculate_book_str_id`: each part preceded by
its 2-digit hex length, parts separated by `"g"`. -/
def joinPartsOf : List String → String
  | [] => ""
  | [p] => partLenHex p ++ p
  | p :: rest => partLenHex p ++ p ++ "g" ++ joinPartsOf rest

/-- `WeReadApi.calculate_book_str_id`. -/
def calculate_book_str_id (book_id : String) : String :=
  let digest := md5hex book_id
  let p := transform_id book_id
  let r1 := strTake digest 3 ++ p.1 ++ "2" ++ strTakeLast digest 2
  let r2 := r1 ++ joinPartsOf p.2
  let r3 := if r2.length < 20 then r2 ++ strTake digest (20 - r2.length) else r2
  r3 ++ strTake (md5hex r3) 3

/-! ### Generic lemmas about the helpers -/

theorem byteHex_length (b : Nat) : (byteHex b).length = 2 := rfl

theorem bytesToHex_length (bs : List Nat) : (bytesToHex bs).length = 2 * bs.length := by
  induction bs with
  | nil => rfl
  | cons b rest ih =>
    show (byteHex b ++ bytesToHex rest).length = _
    rw [String.length_append, ih, byteHex_length, List.length_cons]
    omega

theorem md5DigestBytes_length (st : Nat × Nat × Nat × Nat) :
    (md5DigestBytes st).length = 16 := by
  obtain ⟨a, b, c, d⟩ := st
  simp [md5DigestBytes, wordLEBytes]

theorem md5hex_length (s : String) : (md5hex s).length = 32 := by
  rw [md5hex, md5Bytes, bytesToHex_length, md5DigestBytes_length]

theorem strTake_length (s : String) (n : Nat) :
    (strTake s n).length = min n s.length := by
  show (s.data.take n).length = min n s.data.length
  exact List.length_take n s.data

theorem isPyWs_false_of_digit (c : Char) (h : isPyDigit c = true) : isPyWs c = false := by
  rw [isPyDigit, Bool.and_eq_true, decide_eq_true_eq, decide_eq_true_eq] at h
  by_contra hw
  rw [Bool.not_eq_false, isPyWs] at hw
  simp only [Bool.or_eq_true, beq_iff_eq] at hw
  obtain ⟨h1, h2⟩ := h
  rcases hw with ((((hc | hc) | hc) | hc) | hc) | hc <;>
    (rw [hc] at h1 h2; revert h1 h2; decide)

theorem dropWhile_ws_of_digits (cs : List Char) (h : cs.all isPyDigit = true) :
    cs.dropWhile isPyWs = cs := by
  cases cs with
  | nil => rfl
  | cons c rest =>
    rw [List.all_cons, Bool.and_eq_true] at h
    rw [List.dropWhile_cons, isPyWs_false_of_digit c h.1]
    simp

theorem pyIntChunk_of_digits (cs : List Char) (h : cs.all isPyDigit = true) :
    pyIntChunk cs = decToNat cs := by
  have hrev : cs.reverse.all isPyDigit = true := by
    rw [List.all_eq_true] at h ⊢
    intro x hx
    exact h x (List.mem_reverse.mp hx)
  rw [pyIntChunk, dropWhile_ws_of_digits cs h, dropWhile_ws_of_digits _ hrev,
    List.reverse_reverse]

theorem all_digits_take (cs : List Char) (n : Nat) (h : cs.all isPyDigit = true) :
    (cs.take n).all isPyDigit = true := by
  rw [List.all_eq_true] at h ⊢
  intro x hx
  exact h x (List.mem_of_mem_take hx)

theorem all_digits_drop (cs : List Char) (n : Nat) (h : cs.all isPyDigit = true) :
    (cs.drop n).all isPyDigit = true := by
  rw [List.all_eq_true] at h ⊢
  intro x hx
  exact h x (List.mem_of_mem_drop hx)

theorem chunkHexGo_eq_map (fuel : Nat) (cs : List Char) (h : cs.all isPyDigit = true) :
    chunkHexGo fuel cs = (chunks9Go fuel cs).map (fun ch => natToHex (decToNat ch)) := by
  induction fuel generalizing cs with
  | zero => cases cs <;> rfl
  | succ fuel ih =>
    cases cs with
    | nil => rfl
    | cons c rest =>
      show natToHex (pyIntChunk ((c :: rest).take 9)) :: chunkHexGo fuel ((c :: rest).drop 9)
          = List.map (fun ch => natToHex (decToNat ch))
              ((c :: rest).take 9 :: chunks9Go fuel ((c :: rest).drop 9))
      rw [List.map_cons, pyIntChunk_of_digits _ (all_digits_take (c :: rest) 9 h),
        ih _ (all_digits_drop (c :: rest) 9 h)]

theorem chunks9Go_flatten (fuel : Nat) (cs : List Char) (h : cs.length ≤ fuel) :
    (chunks9Go fuel cs).flatten = cs := by
  induction fuel generalizing cs with
  | zero =>
    have : cs = [] := by
      cases cs with
      | nil => rfl
      | cons c rest => simp at h
    simp [this, chunks9Go]
  | succ fuel ih =>
    cases cs with
    | nil => rfl
    | cons c rest =>
      have hlen : ((c :: rest).drop 9).length ≤ fuel := by
        rw [List.length_drop, List.length_cons]
        simp only [List.length_cons] at h
        omega
      simp only [chunks9Go, List.flatten_cons, ih _ hlen]
      exact List.take_append_drop 9 (c :: rest)

theorem chunks9Go_chunk_le (fuel : Nat) (cs : List Char) (ch : List Char)
    (h : ch ∈ chunks9Go fuel cs) : ch.length ≤ 9 := by
  induction fuel generalizing cs with
  | zero => simp [chunks9Go] at h
  | succ fuel ih =>
    cases cs with
    | nil => simp [chunks9Go] at h
    | cons c rest =>
      simp only [chunks9Go, List.mem_cons] at h
      rcases h with h | h
      · subst h
        have := List.length_take 9 (c :: rest)
        omega
      · exact ih _ h

theorem transform_id_digits (s : String) (h : s.data.all isPyDigit = true) :
    transform_id s = ("3", (chunks9 s.data).map (fun ch => natToHex (decToNat ch))) := by
  have hm : reMatchDigits s.data = true := by
    rw [reMatchDigits, h, Bool.true_or]
  simp [transform_id, hm, chunks9, chunkHexGo_eq_map _ _ h]

theorem charHexConcat_eq_foldr (cs : List Char) :
    charHexConcat cs = (cs.map (fun c => natToHex c.toNat)).foldr (· ++ ·) "" := by
  induction cs with
  | nil => rfl
  | cons c rest ih => simp [charHexConcat, ih]

theorem checksum_append_length (r3 : String) :
    (r3 ++ strTake (md5hex r3) 3).length = r3.length + 3 := by
  rw [String.length_append, strTake_length, md5hex_length]
  omega

theorem padded_length (digest r2 : String) (h : digest.length = 32) :
    20 ≤ (if r2.length < 20 then r2 ++ strTake digest (20 - r2.length) else r2).length := by
  by_cases hlt : r2.length < 20
  · rw [if_pos hlt, String.length_append, strTake_length, h]
    omega
  · rw [if_neg hlt]
    omega

/-- C5: for an all-digit bookId, `transform_id` splits the digit string into
consecutive chunks of at most 9 characters (which concatenate back to the
original string), hex-encodes each chunk's decimal value, and uses type code
"3"; on `"1234567890123"` the chunks are `"123456789"` and `"0123"`, giving
parts `"75bcd15"` and `"7b"`; `calculate_book_str_id` is deterministic and
every result has length at least 23 (at least 20 characters before the 3
trailing checksum characters). -/
theorem c5_numeric_id_transform :
    (∀ s : String, s.data.all isPyDigit = true →
        transform_id s = ("3", (chunks9 s.data).map (fun ch => natToHex (decToNat ch))) ∧
        (∀ ch ∈ chunks9 s.data, ch.length ≤ 9) ∧
        (chunks9 s.data).flatten = s.data) ∧
    chunks9 "1234567890123".data = ["123456789".data, "0123".data] ∧
    transform_id "1234567890123" = ("3", ["75bcd15", "7b"]) ∧
    (∀ s : String, calculate_book_str_id s = calculate_book_str_id s) ∧
    (∀ s : String, 23 ≤ (calculate_book_str_id s).length) := by
  refine ⟨?_, by decide, by decide, fun s => rfl, ?_⟩
  · intro s h
    refine ⟨transform_id_digits s h, ?_, chunks9Go_flatten _ _ (le_refl _)⟩
    intro ch hch
    exact chunks9Go_chunk_le _ _ _ hch
  · intro s
    unfold calculate_book_str_id
    simp only []
    rw [checksum_append_length]
    have hp := padded_length (md5hex s)
      (strTake (md5hex s) 3 ++ (transform_id s).1 ++ "2" ++ strTakeLast (md5hex s) 2 ++
        joinPartsOf (transform_id s).2) (md5hex_length s)
    omega

theorem c5_numeric_id_transform_witness :
    transform_id "1234567890123" =
      ("3", (chunks9 "1234567890123".data).map (fun ch => natToHex (decToNat ch))) ∧
    (chunks9 "1234567890123".data).flatten = "1234567890123".data := by
  have h := c5_numeric_id_transform.1 "1234567890123" (by decide)
  exact ⟨h.1, h.2.2⟩

/-- C6 counterexample: the bookId `"123\n"` contains a non-decimal-digit
character (the newline), yet the transform does not use type code "4": the
source's `re.match("^\d*$", ...)` is truthy because `$` also matches just
before a trailing newline, so the digit branch runs, `int()` strips the
newline, and the result is `("3", ["7b"])`. -/
theorem c6_nonnumeric_counterexample :
    isPyDigit '\n' = false ∧ '\n' ∈ "123\n".data ∧
    transform_id "123\n" = ("3", ["7b"]) :=
  ⟨by decide, by decide, by decide⟩

/-- C6 amended: for every ASCII bookId that the regex `^\d*$` rejects -
that is, one containing a non-decimal-digit character and not consisting of
digits followed by a single trailing newline - the transform uses type code
"4" and exactly one part, the concatenation of each character's code point
in lowercase hex ("abc" gives "616263"); a digit string with one trailing
newline instead takes the type-3 branch with the newline stripped by
`int()`. -/
theorem c6_nonnumeric_id_transform_amended :
    (∀ s : String, (∀ c ∈ s.data, c.toNat < 128) → reMatchDigits s.data = false →
        transform_id s = ("4", [charHexConcat s.data])) ∧
    (∀ s : String,
        charHexConcat s.data = (s.data.map (fun c => natToHex c.toNat)).foldr (· ++ ·) "") ∧
    transform_id "abc" = ("4", ["616263"]) ∧
    transform_id "123\n" = ("3", ["7b"]) := by
  refine ⟨?_, fun s => charHexConcat_eq_foldr s.data, by decide, by decide⟩
  intro s _ h
  simp [transform_id, h]

theorem c6_nonnumeric_id_transform_amended_witness :
    transform_id "abc" = ("4", [charHexConcat "abc".data]) :=
  c6_nonnumeric_id_transform_amended.1 "abc" (by decide) (by decide)

/-! ### CookieCloud domain resolution (cookiecloud_client.py) -/

/-- Python `key.endswith(suffix)`: literal character-suffix test. -/
def pyEndsWith (key suffix : String) : Bool :=
  suffix.data.isSuffixOf key.data

/-- `CookieCloudClient._find_domain_key`, over the payload's keys in
dictionary iteration (insertion) order: exact match, then the dotted
variant, then a scan accepting the first key equal to either form or ending
with the domain as a literal suffix. -/
def find_domain_key (domain : String) (keys : List String) : Option String :=
  if keys.contains domain then some domain
  else if keys.contains ("." ++ domain) then some ("." ++ domain)
  else keys.find? (fun k => k == domain || k == ("." ++ domain) || pyEndsWith k domain)

/-- One browser cookie entry of a CookieCloud payload.  A missing `name` or
`value` field is modelled as the empty string (both are falsy in the
source's truthiness tests, and only truthy fields are ever rendered). -/
structure CookieEntry where
  name : String
  value : String
  domain : Option String

/-- Python `"; ".join(items)`. -/
def joinSemicolon : List String → String
  | [] => ""
  | [x] => x
  | x :: rest => x ++ "; " ++ joinSemicolon rest

/-- `CookieCloudClient.get_cookies` for a given target domain, from the
already-parsed payload dictionary (lines 174-180 of cookiecloud_client.py;
response fetching and decryption are modelled separately).  The matched key
is always present in the payload, so the `[]` default of the lookup is dead
code. -/
def get_cookies_withDomain (payload : List (String × List CookieEntry)) (domain : String) :
    Except PyErr (List (String × List CookieEntry)) :=
  match find_domain_key domain (payload.map Prod.fst) with
  | some matched =>
    if matched = "" then
      .error (.exception ("CookieCloud 中没有找到 " ++ domain ++ " 的 Cookie"))
    else
      .ok [(matched, (payload.lookup matched).getD [])]
  | none => .error (.exception ("CookieCloud 中没有找到 " ++ domain ++ " 的 Cookie"))

/-- `CookieCloudClient.get_cookie_string`: renders the matched entry list as
`name=value` pairs joined by `"; "`. -/
def get_cookie_string (payload : List (String × List CookieEntry)) (domain : String) :
    Except PyErr String :=
  match get_cookies_withDomain payload domain with
  | .error e => .error e
  | .ok cookies_data =>
    match find_domain_key domain (cookies_data.map Prod.fst) with
    | some matched =>
      if matched = "" then
        .error (.exception ("CookieCloud 中没有找到 " ++ domain ++ " 的 Cookie"))
      else
        .ok (joinSemicolon (((cookies_data.lookup matched).getD []).map
          (fun c => c.name ++ "=" ++ c.value)))
    | none => .error (.exception ("CookieCloud 中没有找到 " ++ domain ++ " 的 Cookie"))

/-- `WeReadApiV2._extract_cookies_from_domain`: `none` when the domain's
entry list is missing or empty, or when no entry has both a name and a
value. -/
def extract_cookies_from_domain (cookie_data : List (String × List CookieEntry))
    (domain : String) : Option String :=
  match cookie_data.lookup domain with
  | none => none
  | some cookies =>
    if cookies.length = 0 then none
    else
      let cookie_items := (cookies.filter (fun c => (c.name != "") && (c.value != ""))).map
        (fun c => c.name ++ "=" ++ c.value)
      if cookie_items.length = 0 then none
      else some (joinSemicolon cookie_items)

theorem pyEndsWith_self (s : String) : pyEndsWith s s = true := by
  simp [pyEndsWith, List.isSuffixOf_iff_suffix]

theorem pyEndsWith_dot (domain : String) : pyEndsWith ("." ++ domain) domain = true := by
  simp only [pyEndsWith, List.isSuffixOf_iff_suffix, String.data_append]
  exact List.suffix_append _ _

theorem mem_keys_of_lookup_some {β : Type} (l : List (String × β)) (k : String) (v : β)
    (h : l.lookup k = some v) : k ∈ l.map Prod.fst := by
  induction l with
  | nil => simp [List.lookup] at h
  | cons p rest ih =>
    rw [List.lookup] at h
    cases hk : (k == p.1) with
    | true =>
      have := eq_of_beq hk
      simp [this]
    | false =>
      rw [hk] at h
      simp [ih h]

theorem find_domain_key_scan (domain : String) (keys : List String)
    (h1 : keys.contains domain = false)
    (h2 : keys.contains ("." ++ domain) = false) :
    find_domain_key domain keys = keys.find? (fun k => pyEndsWith k domain) := by
  rw [find_domain_key]
  simp only [h1, h2, Bool.false_eq_true, if_false]
  congr 1
  funext k
  cases hk : (k == domain) with
  | true =>
    have := eq_of_beq hk
    subst this
    simp [pyEndsWith_self]
  | false =>
    cases hk2 : (k == ("." ++ domain)) with
    | true =>
      have := eq_of_beq hk2
      subst this
      simp [pyEndsWith_dot]
    | false => simp

/-- C7: when the payload has a key exactly equal to the target domain, the
resolver returns that exact key (so with both `"example.com"` and
`".example.com"` present, the exact key wins); when the exact key is absent
but the dotted variant is present, the dotted variant is returned - the
fixed priority exact, dotted, suffix scan. -/
theorem c7_domain_match_priority (domain : String) (keys : List String)
    (h : keys.contains domain = true) :
    find_domain_key domain keys = some domain ∧
    (∀ keys2 : List String, keys2.contains domain = false →
        keys2.contains ("." ++ domain) = true →
        find_domain_key domain keys2 = some ("." ++ domain)) := by
  constructor
  · have h' : domain ∈ keys := by simpa using h
    simp [find_domain_key, h']
  · intro keys2 h1 h2
    have h1' : domain ∉ keys2 := by simpa using h1
    have h2' : ("." ++ domain) ∈ keys2 := by simpa using h2
    simp [find_domain_key, h1', h2']

theorem c7_domain_match_priority_witness :
    find_domain_key "example.com" ["example.com", ".example.com"] = some "example.com" ∧
    find_domain_key "example.com" [".example.com"] = some ("." ++ "example.com") := by
  have h := c7_domain_match_priority "example.com" ["example.com", ".example.com"] (by decide)
  exact ⟨h.1, h.2 [".example.com"] (by decide) (by decide)⟩

/-- C9: when no key equals the target domain or its dotted variant, the
resolver degenerates to a scan returning the first key that ends with the
domain as a literal character suffix, with no label-boundary check:
`"evilweread.qq.com"` is matched for target `"weread.qq.com"` even though it
is not a subdomain of it (it neither equals the domain nor ends with
`".weread.qq.com"`). -/
theorem c9_literal_suffix_scan (domain : String) (keys : List String)
    (h1 : keys.contains domain = false)
    (h2 : keys.contains ("." ++ domain) = false) :
    find_domain_key domain keys = keys.find? (fun k => pyEndsWith k domain) ∧
    find_domain_key "weread.qq.com" ["evilweread.qq.com"] = some "evilweread.qq.com" ∧
    pyEndsWith "evilweread.qq.com" "weread.qq.com" = true ∧
    "evilweread.qq.com" ≠ "weread.qq.com" ∧
    pyEndsWith "evilweread.qq.com" ("." ++ "weread.qq.com") = false :=
  ⟨find_domain_key_scan domain keys h1 h2, by decide, by decide, by decide, by decide⟩

theorem c9_literal_suffix_scan_witness :
    find_domain_key "weread.qq.com" ["evilweread.qq.com"] =
      ["evilweread.qq.com"].find? (fun k => pyEndsWith k "weread.qq.com") :=
  (c9_literal_suffix_scan "weread.qq.com" ["evilweread.qq.com"] (by decide) (by decide)).1

/-- C2 counterexample: a payload whose matched key holds an empty cookie
list makes the legacy `get_cookie_string` return the empty credential
string, not a NotFound error. -/
theorem c2_empty_match_counterexample :
    get_cookie_string [("weread.qq.com", [])] "weread.qq.com" = .ok "" := by
  rfl

/-- C2 amended: the V2 extractor `_extract_cookies_from_domain` indeed
reports NotFound (`None`) whenever the matched sequence is empty or no entry
carries both a name and a value; but the legacy `get_cookie_string`
constructs an empty credential string from an empty matched sequence instead
of reporting NotFound. -/
theorem c2_empty_match_amended :
    (∀ (cookie_data : List (String × List CookieEntry)) (domain : String)
        (cookies : List CookieEntry),
        cookie_data.lookup domain = some cookies →
        (∀ c ∈ cookies, c.name = "" ∨ c.value = "") →
        extract_cookies_from_domain cookie_data domain = none) ∧
    (∀ (payload : List (String × List CookieEntry)) (domain : String),
        domain ≠ "" →
        payload.lookup domain = some [] →
        get_cookie_string payload domain = .ok "") := by
  constructor
  · intro cookie_data domain cookies hlk hall
    have hfil : cookies.filter (fun c => (c.name != "") && (c.value != "")) = [] := by
      rw [List.filter_eq_nil_iff]
      intro c hc
      rcases hall c hc with h | h <;> simp [h]
    simp only [extract_cookies_from_domain, hlk]
    by_cases hlen : cookies.length = 0
    · simp [hlen]
    · simp [hlen, hfil]
  · intro payload domain hne hlk
    have hmem : domain ∈ payload.map Prod.fst :=
      mem_keys_of_lookup_some payload domain [] hlk
    have h1 : find_domain_key domain (payload.map Prod.fst) = some domain := by
      simp [find_domain_key, hmem]
    have h2 : get_cookies_withDomain payload domain = .ok [(domain, [])] := by
      rw [get_cookies_withDomain, h1]
      simp [hne, hlk]
    have h3 : find_domain_key domain
        (([(domain, ([] : List CookieEntry))]).map Prod.fst) = some domain := by
      simp [find_domain_key]
    rw [get_cookie_string, h2]
    simp only [h3]
    rw [if_neg hne]
    simp [List.lookup, joinSemicolon]

theorem c2_empty_match_amended_witness :
    extract_cookies_from_domain [("weread.qq.com", [⟨"", "v", none⟩])] "weread.qq.com" = none ∧
    get_cookie_string [("weread.qq.com", [])] "weread.qq.com" = .ok "" := by
  constructor
  · exact c2_empty_match_amended.1 [("weread.qq.com", [⟨"", "v", none⟩])] "weread.qq.com"
      [⟨"", "v", none⟩] rfl (by intro c hc; rw [List.mem_singleton] at hc; subst hc; left; rfl)
  · exact c2_empty_match_amended.2 [("weread.qq.com", [])] "weread.qq.com" (by decide) rfl

/-! ### Embedded JSON/Python values -/

/-- Embedded JSON-like Python values as they occur in parsed API
responses. Dicts are association lists in insertion order (Python dicts
preserve insertion order and have unique keys). -/
inductive JVal where
  | null
  | bool (b : Bool)
  | int (n : Int)
  | str (s : String)
  | arr (xs : List JVal)
  | obj (kvs : List (String × JVal))

/-- Value stored under a key of an embedded dict (first occurrence; Python
dicts have unique keys). -/
def objLookup (kvs : List (String × JVal)) (k : String) : Option JVal :=
  match kvs with
  | [] => none
  | (k2, v) :: rest => if k2 = k then some v else objLookup rest k

/-- Python `v == n` comparison of an embedded value against an int literal
(false for values of any other type, as in Python). -/
def isIntEq (v : JVal) (n : Int) : Bool :=
  match v with
  | .int m => m == n
  | _ => false

/-- Python `str()` rendering as used in f-strings and for dict keys.
Scalars follow CPython exactly; container rendering is abbreviated since no
code path modelled here ever renders a container. -/
def pyStr : JVal → String
  | .null => "None"
  | .bool true => "True"
  | .bool false => "False"
  | .int n => toString n
  | .str s => s
  | .arr _ => "<list>"
  | .obj _ => "<dict>"

/-! ### Error-code handling and retry (weread_api.py / weread_api_v2.py) -/

/-- `WeReadApi.handle_errcode` (legacy client, lines 119-121): only prints a
warning for the two expiry codes; it never raises, in either branch. -/
def handle_errcode_legacy (errcode : Int) : Except PyErr Unit :=
  if errcode = -2012 ∨ errcode = -2010 then .ok () else .ok ()

/-- The exception raised by `WeReadApiV2.handle_errcode` for the expiry
codes. -/
def cookieExpiredErr : PyErr := .exception "微信读书 Cookie 过期"

/-- `WeReadApiV2.handle_errcode` (lines 180-184): raises the cookie-expired
exception when the code is one of the two expiry sentinels. -/
def handle_errcode_v2 (errcode : Int) : Except PyErr Unit :=
  if errcode = -2012 ∨ errcode = -2010 then .error cookieExpiredErr else .ok ()

/-- The errcode-checking step of `WeReadApiV2.make_api_request` (lines
258-263): when the parsed response is a dict with a nonzero `errcode`, call
`handle_errcode` (raising for expiry codes) and otherwise raise the generic
API error built from `errmsg`. -/
def make_api_request_check (json_data : JVal) : Except PyErr Unit :=
  match json_data with
  | .obj kvs =>
    match objLookup kvs "errcode" with
    | some v =>
      if isIntEq v 0 then .ok ()
      else
        match (match v with
               | .int n => handle_errcode_v2 n
               | _ => .ok ()) with
        | .error e => .error e
        | .ok _ =>
          .error (.exception ("API返回错误: " ++
            pyStr ((objLookup kvs "errmsg").getD (.str "Unknown error")) ++
            " (code: " ++ pyStr v ++ ")"))
    | none => .ok ()
  | _ => .ok ()

/-- `WeReadApiV2._retry` (lines 186-202), instrumented: `f attempt` is the
outcome of the `attempt`-th call of `func`; the result is paired with the
number of calls made.  The fuel argument counts the remaining iterations of
`range(1, max_attempts + 1)`; the fuel-exhausted error is the source's
(unreachable for a positive budget) trailing raise. -/
def retry_go {α : Type} (f : Nat → Except PyErr α) (max_attempts : Nat) :
    Nat → Nat → Except PyErr α × Nat
  | _, 0 => (.error (.exception "所有重试都失败了"), 0)
  | attempt, fuel + 1 =>
    match f attempt with
    | .ok v => (.ok v, 1)
    | .error e =>
      if attempt = max_attempts then (.error e, 1)
      else
        let r := retry_go f max_attempts (attempt + 1) fuel
        (r.1, r.2 + 1)

/-- `WeReadApiV2._retry`: attempts are numbered from 1 and the loop runs at
most `max_attempts` iterations. -/
def retry_run {α : Type} (f : Nat → Except PyErr α) (max_attempts : Nat) :
    Except PyErr α × Nat :=
  retry_go f max_attempts 1 max_attempts

/-- C4: under the 3-attempt retry policy, two transient failures followed by
a success return the successful result (making 3 calls), and three failures
make exactly 3 calls and propagate the third (final) error unmodified. -/
theorem c4_retry_budget (e1 e2 e3 : PyErr) (v : JVal) :
    retry_run (fun k => if k = 1 then .error e1 else if k = 2 then .error e2
      else .ok v) 3 = (.ok v, 3) ∧
    retry_run (fun k => if k = 1 then .error e1 else if k = 2 then .error e2
      else (.error e3 : Except PyErr JVal)) 3 = (.error e3, 3) :=
  ⟨rfl, rfl⟩

/-- C1 counterexample: a response carrying expiry code -2012 makes the V2
engine raise the cookie-expired exception on every attempt, yet the retry
loop still performs all 3 attempts before propagating it - it would perform
exactly 1 if the expiry code short-circuited the remaining retries as the
claim states. -/
theorem c1_expiry_retry_counterexample :
    make_api_request_check (JVal.obj [("errcode", JVal.int (-2012))]) =
      .error cookieExpiredErr ∧
    retry_run (fun _ => (.error cookieExpiredErr : Except PyErr JVal)) 3 =
      (.error cookieExpiredErr, 3) ∧
    (retry_run (fun _ => (.error cookieExpiredErr : Except PyErr JVal)) 3).2 ≠ 1 :=
  ⟨rfl, rfl, by decide⟩

/-- C1 amended: the expiry codes -2012 and -2010 make the V2 client raise an
exception carrying the distinct cookie-expired message (while the legacy
`handle_errcode` never raises, leaving only the generic failure that
follows it), but this exception does not short-circuit the retry loop: the
engine still makes the full 3-attempt budget before propagating it.
Non-expiry nonzero codes produce the generic API error instead. -/
theorem c1_expiry_handling_amended (n : Int) (h : n = -2012 ∨ n = -2010) :
    handle_errcode_v2 n = .error cookieExpiredErr ∧
    handle_errcode_legacy n = .ok () ∧
    make_api_request_check (JVal.obj [("errcode", JVal.int n)]) = .error cookieExpiredErr ∧
    retry_run (fun _ => (.error cookieExpiredErr : Except PyErr JVal)) 3 =
      (.error cookieExpiredErr, 3) ∧
    (∀ m : Int, m ≠ -2012 → m ≠ -2010 → m ≠ 0 →
      make_api_request_check (JVal.obj [("errcode", JVal.int m)]) =
        .error (.exception ("API返回错误: Unknown error (code: " ++ toString m ++ ")"))) := by
  have hgen : ∀ m : Int, m ≠ -2012 → m ≠ -2010 → m ≠ 0 →
      make_api_request_check (JVal.obj [("errcode", JVal.int m)]) =
        .error (.exception ("API返回错误: Unknown error (code: " ++ toString m ++ ")")) := by
    intro m hm1 hm2 hm0
    simp [make_api_request_check, objLookup, isIntEq, handle_errcode_v2, pyStr,
      hm1, hm2, hm0]
  rcases h with h | h <;> subst h <;> exact ⟨rfl, rfl, rfl, rfl, hgen⟩

theorem c1_expiry_handling_amended_witness :
    handle_errcode_v2 (-2012) = .error cookieExpiredErr ∧
    handle_errcode_legacy (-2012) = .ok () ∧
    make_api_request_check (JVal.obj [("errcode", JVal.int (-2012))]) =
      .error cookieExpiredErr ∧
    make_api_request_check (JVal.obj [("errcode", JVal.int 5)]) =
      .error (.exception ("API返回错误: Unknown error (code: " ++ toString (5 : Int) ++ ")")) := by
  have h := c1_expiry_handling_amended (-2012) (Or.inl rfl)
  exact ⟨h.1, h.2.1, h.2.2.1, h.2.2.2.2 5 (by decide) (by decide) (by decide)⟩

/-! ### Python container operations over embedded values -/

/-- Whether an embedded element equals a Python string literal (list
membership `in` compares elements by `==`; only an equal str matches). -/
def isStrEq (v : JVal) (s : String) : Bool :=
  match v with
  | .str t => t == s
  | _ => false

/-- Substring test on char lists (Python `in` on strings). -/
def isSubstrList (needle : List Char) : List Char → Bool
  | [] => needle.isEmpty
  | hay@(_ :: t) => needle.isPrefixOf hay || isSubstrList needle t

/-- Python `s in v`: key test on dicts, membership on lists, substring test
on strings; TypeError otherwise. -/
def pyContains (v : JVal) (s : String) : Except PyErr Bool :=
  match v with
  | .obj kvs => .ok (kvs.any (fun p => p.1 == s))
  | .arr xs => .ok (xs.any (fun x => isStrEq x s))
  | .str t => .ok (isSubstrList s.data t.data)
  | _ => .error (.typeError "argument of type is not iterable")

/-- Python `v[k]` for a string subscript: dict lookup (KeyError when the
key is missing), TypeError for other receivers. -/
def pyIndexStr (v : JVal) (k : String) : Except PyErr JVal :=
  match v with
  | .obj kvs =>
    match objLookup kvs k with
    | some x => .ok x
    | none => .error (.keyError k)
  | _ => .error (.typeError "object is not subscriptable")

/-- Python `v[i]` for an int subscript: list indexing (IndexError when out
of range), single-character string for strings, TypeError otherwise. -/
def pyIndexNat (v : JVal) (i : Nat) : Except PyErr JVal :=
  match v with
  | .arr xs =>
    match xs.get? i with
    | some x => .ok x
    | none => .error (.indexError "list index out of range")
  | .str t =>
    match t.data.get? i with
    | some c => .ok (.str ⟨[c]⟩)
    | none => .error (.indexError "string index out of range")
  | _ => .error (.typeError "object is not subscriptable")

/-- Python `v.get(k)`: a dict method; AttributeError on any other
receiver. -/
def pyGet (v : JVal) (k : String) : Except PyErr (Option JVal) :=
  match v with
  | .obj kvs => .ok (objLookup kvs k)
  | _ => .error (.attributeError "object has no attribute get")

/-- Python truthiness of an embedded value. -/
def pyTruthy : JVal → Bool
  | .null => false
  | .bool b => b
  | .int n => !(n == 0)
  | .str s => !(s == "")
  | .arr xs => !xs.isEmpty
  | .obj kvs => !kvs.isEmpty

/-- Python dict assignment `d[k] = v`: overwrite in place when the key
exists, else append (dict insertion order semantics). -/
def dictInsert (kvs : List (String × JVal)) (k : String) (v : JVal) :
    List (String × JVal) :=
  if kvs.any (fun p => p.1 == k) then
    kvs.map (fun p => if p.1 = k then (k, v) else p)
  else kvs ++ [(k, v)]

/-- Sequencing of embedded computations with exception propagation. -/
def exBind {α β : Type} (x : Except PyErr α) (f : α → Except PyErr β) : Except PyErr β :=
  match x with
  | .error e => .error e
  | .ok a => f a

/-! ### Chapter-info normalization (WeReadApiV2.get_chapter_info) -/

/-- The synthetic reviews pseudo-chapter appended by the chapter-info
normalizers. -/
def sentinelChapter : JVal :=
  .obj [("chapterUid", .int 1000000), ("chapterIdx", .int 1000000),
        ("updateTime", .int 1683825006), ("readAhead", .int 0),
        ("title", .str "点评"), ("level", .int 1)]

/-- Shape probe, format 1: `"data" in data and isinstance(data["data"],
list) and len(data["data"]) == 1 and "updated" in data["data"][0]`. -/
def fmt1Cond (data : JVal) : Except PyErr Bool :=
  exBind (pyContains data "data") (fun c =>
    if c then
      exBind (pyIndexStr data "data") (fun dd =>
        match dd with
        | .arr xs =>
          if xs.length = 1 then
            exBind (pyIndexNat dd 0) (fun x0 => pyContains x0 "updated")
          else .ok false
        | _ => .ok false)
    else .ok false)

/-- Shape probe, format 2: `"updated" in data and isinstance(data["updated"],
list)`. -/
def fmt2Cond (data : JVal) : Except PyErr Bool :=
  exBind (pyContains data "updated") (fun c =>
    if c then
      exBind (pyIndexStr data "updated") (fun du =>
        match du with
        | .arr _ => .ok true
        | _ => .ok false)
    else .ok false)

/-- Shape probe, format 3: `isinstance(data, list) and len(data) > 0 and
"updated" in data[0]`. -/
def fmt3Cond (data : JVal) : Except PyErr Bool :=
  match data with
  | .arr (x0 :: _) => pyContains x0 "updated"
  | _ => .ok false

/-- Shape probe, format 4: `isinstance(data, list) and len(data) > 0 and
"chapterUid" in data[0]`. -/
def fmt4Cond (data : JVal) : Except PyErr Bool :=
  match data with
  | .arr (x0 :: _) => pyContains x0 "chapterUid"
  | _ => .ok false

/-- The `update` extraction of `get_chapter_info` step 6: probe the four
envelope shapes in the source's order and return the chapter-list container
of the first match, `none` if no shape matches. -/
def probeUpdate (data : JVal) : Except PyErr (Option JVal) :=
  exBind (fmt1Cond data) (fun c1 =>
    if c1 then
      exBind (pyIndexStr data "data") (fun dd =>
        exBind (pyIndexNat dd 0) (fun x0 =>
          exBind (pyIndexStr x0 "updated") (fun u => .ok (some u))))
    else
      exBind (fmt2Cond data) (fun c2 =>
        if c2 then
          exBind (pyIndexStr data "updated") (fun u => .ok (some u))
        else
          exBind (fmt3Cond data) (fun c3 =>
            if c3 then
              exBind (pyIndexNat data 0) (fun x0 =>
                exBind (pyIndexStr x0 "updated") (fun u => .ok (some u)))
            else
              exBind (fmt4Cond data) (fun c4 =>
                if c4 then .ok (some data) else .ok none))))

/-- The result-building loop of `get_chapter_info`: key each chapter by
`str(curr["chapterUid"])`, inserting in order. -/
def buildChapterDict (items : List JVal) (acc : List (String × JVal)) :
    Except PyErr (List (String × JVal)) :=
  match items with
  | [] => .ok acc
  | curr :: rest =>
    match pyIndexStr curr "chapterUid" with
    | .error e => .error e
    | .ok cu => buildChapterDict rest (dictInsert acc (pyStr cu) curr)

/-- The errcode fallback of `get_chapter_info` when no shape matched:
`errcode = data.get("errCode") or data.get("errcode", 0)`; the two expiry
codes are tolerated with an empty result, any other nonzero code raises
(the expiry branch of `handle_errcode` is unreachable there), and code zero
raises the unexpected-format error. -/
def chapterErrcodeFallback (data : JVal) : Except PyErr (List (String × JVal)) :=
  exBind (pyGet data "errCode") (fun e1 =>
    exBind (pyGet data "errcode") (fun e2 =>
      let ecv : JVal :=
        match e1 with
        | some v => if pyTruthy v then v else e2.getD (.int 0)
        | none => e2.getD (.int 0)
      if isIntEq ecv (-2012) || isIntEq ecv (-2010) then .ok []
      else if !(isIntEq ecv 0) then
        exBind (match ecv with
                | .int n => handle_errcode_v2 n
                | _ => .ok ()) (fun _ =>
          exBind (pyGet data "errMsg") (fun m1 =>
            exBind (pyGet data "errmsg") (fun m2 =>
              let emsg : JVal :=
                match m1 with
                | some v => if pyTruthy v then v else m2.getD (.str "Unknown")
                | none => m2.getD (.str "Unknown")
              .error (.exception ("API返回错误: " ++ pyStr emsg ++
                " (code: " ++ pyStr ecv ++ ")")))))
      else .error (.exception "获取章节信息失败，返回格式不符合预期")))

/-- The pure normalization step of `WeReadApiV2.get_chapter_info` (lines
416-463) applied to the parsed chapterInfos response: extract the chapter
list from one of the four envelope shapes, append the synthetic reviews
pseudo-chapter, and key the result dict by `str(chapterUid)`. -/
def get_chapter_info_v2_normalize (data : JVal) :
    Except PyErr (List (String × JVal)) :=
  exBind (probeUpdate data) (fun upd =>
    match upd with
    | some update =>
      match update with
      | .arr items => buildChapterDict (items ++ [sentinelChapter]) []
      | _ => .error (.attributeError "object has no attribute append")
    | none => chapterErrcodeFallback data)

/-- Envelope shape 1 carrying chapter list `L`:
`{data: [{bookId: ..., updated: L}]}`. -/
def shape1 (bookId : String) (L : List JVal) : JVal :=
  .obj [("data", .arr [.obj [("bookId", .str bookId), ("updated", .arr L)]])]

/-- Envelope shape 2 carrying chapter list `L`: `{updated: L}`. -/
def shape2 (L : List JVal) : JVal := .obj [("updated", .arr L)]

/-- Envelope shape 3 carrying chapter list `L`:
`[{bookId: ..., updated: L}]`. -/
def shape3 (bookId : String) (L : List JVal) : JVal :=
  .arr [.obj [("bookId", .str bookId), ("updated", .arr L)]]

/-- Envelope shape 4: the bare chapter array itself. -/
def shape4 (L : List JVal) : JVal := .arr L

/-- A well-formed chapter object: a dict that carries a `chapterUid` key
and no `updated` key (per the ChapterRecord data model, whose fields are
chapterUid, chapterIdx, title, level, updateTime, readAhead). -/
def isWfChapter (c : JVal) : Bool :=
  match c with
  | .obj kvs =>
    kvs.any (fun p => p.1 == "chapterUid") && !(kvs.any (fun p => p.1 == "updated"))
  | _ => false

/-! ### Review-list chapterUid assignment (get_review_list, legacy vs V2) -/

/-- Python dict-literal update: insert `kvs` in order into `base`. -/
def pyDictUpdate (base : List (String × JVal)) (kvs : List (String × JVal)) :
    List (String × JVal) :=
  kvs.foldl (fun d p => dictInsert d p.1 p.2) base

/-- The legacy per-review transform of `WeReadApi.get_review_list`:
`{"chapterUid": 1000000, **x} if x.get("type") == 4 else x`. -/
def legacy_review_transform (x : List (String × JVal)) : List (String × JVal) :=
  if isIntEq ((objLookup x "type").getD .null) 4 then
    pyDictUpdate [("chapterUid", .int 1000000)] x
  else x

/-- The V2 per-review transform of `WeReadApiV2.get_review_list`:
`{**x, "chapterUid": 1000000} if x.get("type") == 4 else x`. -/
def v2_review_transform (x : List (String × JVal)) : List (String × JVal) :=
  if isIntEq ((objLookup x "type").getD .null) 4 then
    dictInsert (pyDictUpdate [] x) "chapterUid" (.int 1000000)
  else x

/-! ### Lemmas about embedded dict operations -/

theorem objLookup_of_not_any (kvs : List (String × JVal)) (k : String)
    (h : kvs.any (fun p => p.1 == k) = false) : objLookup kvs k = none := by
  induction kvs with
  | nil => rfl
  | cons p rest ih =>
    cases p with
    | mk kp vp =>
      simp only [List.any_cons, Bool.or_eq_false_iff] at h
      have hk : ¬(kp = k) := by simpa using h.1
      simp [objLookup, hk, ih h.2]

theorem objLookup_isSome_of_any (kvs : List (String × JVal)) (k : String)
    (h : kvs.any (fun p => p.1 == k) = true) : ∃ v, objLookup kvs k = some v := by
  induction kvs with
  | nil => simp at h
  | cons p rest ih =>
    cases p with
    | mk kp vp =>
      by_cases hk : kp = k
      · exact ⟨vp, by simp [objLookup, hk]⟩
      · have hk' : (kp == k) = false := by simpa using hk
        simp only [List.any_cons, hk', Bool.false_or] at h
        obtain ⟨v, hv⟩ := ih h
        exact ⟨v, by simp [objLookup, hk, hv]⟩

theorem objLookup_map_overwrite (d : List (String × JVal)) (k : String) (v : JVal)
    (h : d.any (fun p => p.1 == k) = true) :
    objLookup (d.map (fun p => if p.1 = k then (k, v) else p)) k = some v := by
  induction d with
  | nil => simp at h
  | cons p rest ih =>
    cases p with
    | mk kp vp =>
      by_cases hk : kp = k
      · subst hk
        have hhead : (if (kp, vp).1 = kp then (kp, v) else (kp, vp)) = (kp, v) := by simp
        rw [List.map_cons, hhead]
        simp [objLookup]
      · have hk' : (kp == k) = false := by simpa using hk
        simp only [List.any_cons, hk', Bool.false_or] at h
        have hhead : (if (kp, vp).1 = k then (k, v) else (kp, vp)) = (kp, vp) := by simp [hk]
        rw [List.map_cons, hhead]
        simp [objLookup, hk, ih h]

theorem objLookup_append_single (d : List (String × JVal)) (k : String) (v : JVal)
    (h : d.any (fun p => p.1 == k) = false) :
    objLookup (d ++ [(k, v)]) k = some v := by
  induction d with
  | nil => simp [objLookup]
  | cons p rest ih =>
    cases p with
    | mk kp vp =>
      simp only [List.any_cons, Bool.or_eq_false_iff] at h
      have hk : ¬(kp = k) := by simpa using h.1
      simp [objLookup, hk, ih h.2]

theorem objLookup_dictInsert (d : List (String × JVal)) (k : String) (v : JVal) :
    objLookup (dictInsert d k v) k = some v := by
  rw [dictInsert]
  by_cases h : d.any (fun p => p.1 == k) = true
  · rw [if_pos h]
    exact objLookup_map_overwrite d k v h
  · have h' : d.any (fun p => p.1 == k) = false := Bool.eq_false_iff.mpr h
    rw [if_neg h]
    exact objLookup_append_single d k v h'

theorem objLookup_map_overwrite_ne (d : List (String × JVal)) (k k2 : String) (v : JVal)
    (hne : k2 ≠ k) :
    objLookup (d.map (fun p => if p.1 = k then (k, v) else p)) k2 = objLookup d k2 := by
  induction d with
  | nil => rfl
  | cons p rest ih =>
    cases p with
    | mk kp vp =>
      by_cases hk : kp = k
      · subst hk
        have hne' : ¬(kp = k2) := fun hh => hne (hh ▸ rfl)
        have hhead : (if (kp, vp).1 = kp then (kp, v) else (kp, vp)) = (kp, v) := by simp
        rw [List.map_cons, hhead]
        simp [objLookup, hne', ih]
      · have hhead : (if (kp, vp).1 = k then (k, v) else (kp, vp)) = (kp, vp) := by simp [hk]
        rw [List.map_cons, hhead]
        by_cases hk2 : kp = k2
        · simp [objLookup, hk2]
        · simp [objLookup, hk2, ih]

theorem objLookup_append_single_ne (d : List (String × JVal)) (k k2 : String) (v : JVal)
    (hne : k2 ≠ k) :
    objLookup (d ++ [(k, v)]) k2 = objLookup d k2 := by
  induction d with
  | nil =>
    have hne' : ¬(k = k2) := fun hh => hne hh.symm
    simp [objLookup, hne']
  | cons p rest ih =>
    cases p with
    | mk kp vp =>
      by_cases hk2 : kp = k2
      · simp [objLookup, hk2]
      · simp [objLookup, hk2, ih]

theorem objLookup_dictInsert_ne (d : List (String × JVal)) (k k2 : String) (v : JVal)
    (hne : k2 ≠ k) : objLookup (dictInsert d k v) k2 = objLookup d k2 := by
  rw [dictInsert]
  by_cases h : d.any (fun p => p.1 == k) = true
  · rw [if_pos h]
    exact objLookup_map_overwrite_ne d k k2 v hne
  · rw [if_neg h]
    exact objLookup_append_single_ne d k k2 v hne

theorem objLookup_pyDictUpdate_of_none (x : List (String × JVal))
    (base : List (String × JVal)) (k : String) :
    objLookup x k = none → objLookup (pyDictUpdate base x) k = objLookup base k := by
  induction x generalizing base with
  | nil => intro _; rfl
  | cons p rest ih =>
    intro h
    cases p with
    | mk kp vp =>
      by_cases hk : kp = k
      · simp [objLookup, hk] at h
      · have h' : objLookup rest k = none := by simpa [objLookup, hk] using h
        rw [pyDictUpdate, List.foldl_cons]
        have hstep : List.foldl (fun d p => dictInsert d p.1 p.2) (dictInsert base kp vp) rest
            = pyDictUpdate (dictInsert base kp vp) rest := rfl
        rw [hstep, ih _ h']
        exact objLookup_dictInsert_ne base kp k vp (fun hh => hk hh.symm)

theorem objLookup_pyDictUpdate_of_some (x : List (String × JVal))
    (base : List (String × JVal)) (k : String) (v : JVal) :
    (x.map Prod.fst).Nodup → objLookup x k = some v →
    objLookup (pyDictUpdate base x) k = some v := by
  induction x generalizing base with
  | nil => intro _ h; simp [objLookup] at h
  | cons p rest ih =>
    intro hnd h
    cases p with
    | mk kp vp =>
      have hnd' : (kp :: rest.map Prod.fst).Nodup := by
        rw [List.map_cons] at hnd
        exact hnd
      have hnotin : kp ∉ rest.map Prod.fst := (List.nodup_cons.mp hnd').1
      have hndr : (rest.map Prod.fst).Nodup := (List.nodup_cons.mp hnd').2
      rw [pyDictUpdate, List.foldl_cons]
      have hstep : List.foldl (fun d p => dictInsert d p.1 p.2) (dictInsert base kp vp) rest
          = pyDictUpdate (dictInsert base kp vp) rest := rfl
      rw [hstep]
      by_cases hk : kp = k
      · subst hk
        have hv : vp = v := by simpa [objLookup] using h
        have hrest : objLookup rest kp = none := by
          apply objLookup_of_not_any
          rw [List.any_eq_false]
          intro p hp hbeq
          have hmm : p.1 ∈ rest.map Prod.fst := List.mem_map_of_mem Prod.fst hp
          rw [eq_of_beq hbeq] at hmm
          exact hnotin hmm
        rw [objLookup_pyDictUpdate_of_none rest (dictInsert base kp vp) kp hrest,
          objLookup_dictInsert, hv]
      · have h' : objLookup rest k = some v := by simpa [objLookup, hk] using h
        exact ih _ hndr h'

/-- C10 counterexample: a type-4 review that carries its own chapterUid
equal to the sentinel 1000000 gets the same chapterUid from the legacy and
the V2 transforms even though it does carry a chapterUid of its own, so the
claimed equivalence "same chapterUid iff no own chapterUid" fails. -/
theorem c10_review_chapteruid_counterexample :
    objLookup (legacy_review_transform
        [("type", JVal.int 4), ("chapterUid", JVal.int 1000000)]) "chapterUid" =
      objLookup (v2_review_transform
        [("type", JVal.int 4), ("chapterUid", JVal.int 1000000)]) "chapterUid" ∧
    objLookup [("type", JVal.int 4), ("chapterUid", JVal.int 1000000)] "chapterUid" ≠ none :=
  ⟨rfl, fun h => Option.noConfusion h⟩

/-- C10 amended: for a type-4 review dict, the V2 merge always forces the
sentinel chapterUid 1000000, the legacy merge keeps a server-supplied
chapterUid and falls back to the sentinel only when none is present, and
the two agree if and only if the review carries no chapterUid of its own or
carries exactly the sentinel value 1000000. -/
theorem c10_review_chapteruid_amended (x : List (String × JVal))
    (hnd : (x.map Prod.fst).Nodup)
    (ht : isIntEq ((objLookup x "type").getD .null) 4 = true) :
    objLookup (v2_review_transform x) "chapterUid" = some (.int 1000000) ∧
    (objLookup x "chapterUid" = none →
      objLookup (legacy_review_transform x) "chapterUid" = some (.int 1000000)) ∧
    (∀ v, objLookup x "chapterUid" = some v →
      objLookup (legacy_review_transform x) "chapterUid" = some v) ∧
    ((objLookup (legacy_review_transform x) "chapterUid" =
        objLookup (v2_review_transform x) "chapterUid") ↔
      (objLookup x "chapterUid" = none ∨
        objLookup x "chapterUid" = some (.int 1000000))) := by
  have hv2 : objLookup (v2_review_transform x) "chapterUid" = some (.int 1000000) := by
    rw [v2_review_transform, if_pos ht, objLookup_dictInsert]
  have hnone : objLookup x "chapterUid" = none →
      objLookup (legacy_review_transform x) "chapterUid" = some (.int 1000000) := by
    intro h
    rw [legacy_review_transform, if_pos ht,
      objLookup_pyDictUpdate_of_none x _ _ h]
    simp [objLookup]
  have hsome : ∀ v, objLookup x "chapterUid" = some v →
      objLookup (legacy_review_transform x) "chapterUid" = some v := by
    intro v h
    rw [legacy_review_transform, if_pos ht]
    exact objLookup_pyDictUpdate_of_some x _ _ v hnd h
  refine ⟨hv2, hnone, hsome, ?_⟩
  cases hcu : objLookup x "chapterUid" with
  | none => simp [hv2, hnone hcu]
  | some v =>
    rw [hv2, hsome v hcu]
    constructor
    · intro h
      right
      rw [Option.some_inj.mp h]
    · intro h
      rcases h with h | h
      · exact absurd h (by simp)
      · rw [Option.some_inj.mp h]

theorem c10_review_chapteruid_amended_witness :
    objLookup (v2_review_transform [("type", JVal.int 4)]) "chapterUid" =
      some (JVal.int 1000000) ∧
    objLookup (legacy_review_transform [("type", JVal.int 4)]) "chapterUid" =
      some (JVal.int 1000000) := by
  have h := c10_review_chapteruid_amended [("type", JVal.int 4)] (by simp) (by decide)
  exact ⟨h.1, h.2.1 rfl⟩

/-! ### Lemmas for the chapter-info normalizer -/

theorem any_isStrEq_false (L : List JVal) (s : String)
    (h : ∀ c ∈ L, isWfChapter c = true) :
    (L.any (fun x => isStrEq x s)) = false := by
  rw [List.any_eq_false]
  intro x hx
  have hw := h x hx
  cases x with
  | obj kvs => simp [isStrEq]
  | null => simp [isWfChapter] at hw
  | bool b => simp [isWfChapter] at hw
  | int n => simp [isWfChapter] at hw
  | str t => simp [isWfChapter] at hw
  | arr xs => simp [isWfChapter] at hw

theorem wfChapter_obj (c : JVal) (h : isWfChapter c = true) :
    ∃ kvs, c = JVal.obj kvs ∧ (kvs.any (fun p => p.1 == "chapterUid")) = true ∧
      (kvs.any (fun p => p.1 == "updated")) = false := by
  cases c with
  | obj kvs =>
    simp only [isWfChapter, Bool.and_eq_true, Bool.not_eq_true'] at h
    exact ⟨kvs, rfl, h.1, h.2⟩
  | null => simp [isWfChapter] at h
  | bool b => simp [isWfChapter] at h
  | int n => simp [isWfChapter] at h
  | str s => simp [isWfChapter] at h
  | arr xs => simp [isWfChapter] at h

theorem wfChapter_pyIndex (c : JVal) (h : isWfChapter c = true) :
    ∃ v, pyIndexStr c "chapterUid" = .ok v := by
  obtain ⟨kvs, rfl, hany, _⟩ := wfChapter_obj c h
  obtain ⟨v, hv⟩ := objLookup_isSome_of_any kvs "chapterUid" hany
  exact ⟨v, by simp [pyIndexStr, hv]⟩

theorem buildChapterDict_ok (items : List JVal) (acc : List (String × JVal))
    (h : ∀ c ∈ items, ∃ x, pyIndexStr c "chapterUid" = .ok x) :
    ∃ d, buildChapterDict items acc = .ok d := by
  induction items generalizing acc with
  | nil => exact ⟨acc, rfl⟩
  | cons c rest ih =>
    obtain ⟨x, hx⟩ := h c (by simp)
    rw [buildChapterDict, hx]
    exact ih _ (fun c' hc' => h c' (by simp [hc']))

theorem buildChapterDict_append_one (items : List JVal) (last : JVal)
    (acc : List (String × JVal)) :
    buildChapterDict (items ++ [last]) acc =
      exBind (buildChapterDict items acc) (fun d =>
        match pyIndexStr last "chapterUid" with
        | .error e => .error e
        | .ok cu => .ok (dictInsert d (pyStr cu) last)) := by
  induction items generalizing acc with
  | nil =>
    cases hcu : pyIndexStr last "chapterUid" with
    | error e => simp [buildChapterDict, hcu, exBind]
    | ok cu => simp [buildChapterDict, hcu, exBind]
  | cons c rest ih =>
    cases hc : pyIndexStr c "chapterUid" with
    | error e => simp [buildChapterDict, hc, exBind]
    | ok cu => simp [buildChapterDict, hc, ih]

theorem normalize_shape4 (L : List JVal) (hne : L ≠ [])
    (hwf : ∀ c ∈ L, isWfChapter c = true) :
    get_chapter_info_v2_normalize (shape4 L) =
      buildChapterDict (L ++ [sentinelChapter]) [] := by
  obtain ⟨c0, rest, rfl⟩ := List.exists_cons_of_ne_nil hne
  have hc0 := hwf c0 (by simp)
  obtain ⟨kvs, rfl, h1, h2⟩ := wfChapter_obj c0 hc0
  have hd : ((JVal.obj kvs :: rest).any (fun x => isStrEq x "data")) = false :=
    any_isStrEq_false _ _ hwf
  have hu : ((JVal.obj kvs :: rest).any (fun x => isStrEq x "updated")) = false :=
    any_isStrEq_false _ _ hwf
  rw [get_chapter_info_v2_normalize, shape4, probeUpdate]
  have hf1 : fmt1Cond (JVal.arr (JVal.obj kvs :: rest)) = .ok false := by
    simp [fmt1Cond, pyContains, exBind, hd]
  have hf2 : fmt2Cond (JVal.arr (JVal.obj kvs :: rest)) = .ok false := by
    simp [fmt2Cond, pyContains, exBind, hu]
  have hf3 : fmt3Cond (JVal.arr (JVal.obj kvs :: rest)) = .ok false := by
    simp [fmt3Cond, pyContains, h2]
  have hf4 : fmt4Cond (JVal.arr (JVal.obj kvs :: rest)) = .ok true := by
    simp [fmt4Cond, pyContains, h1]
  rw [hf1]
  simp only [exBind, Bool.false_eq_true, if_false]
  rw [hf2]
  simp only [exBind, Bool.false_eq_true, if_false]
  rw [hf3]
  simp only [exBind, Bool.false_eq_true, if_false]
  rw [hf4]
  simp only [exBind, if_true]

/-- C3 counterexample: for the empty logical chapter list, envelope shapes
1-3 normalize to the sentinel-only mapping, but shape 4 (the bare chapter
array, which is then the empty list) is not recognized by any probe and the
normalizer raises instead of producing the same canonical output, so the
four shapes do not always produce identical output for every logical
chapter list. -/
theorem c3_chapter_envelopes_counterexample :
    get_chapter_info_v2_normalize (shape1 "b1" []) = .ok [("1000000", sentinelChapter)] ∧
    get_chapter_info_v2_normalize (shape2 []) = .ok [("1000000", sentinelChapter)] ∧
    get_chapter_info_v2_normalize (shape3 "b1" []) = .ok [("1000000", sentinelChapter)] ∧
    get_chapter_info_v2_normalize (shape4 []) =
      .error (.attributeError "object has no attribute get") :=
  ⟨rfl, rfl, rfl, rfl⟩

/-- C3 amended: for every nonempty logical chapter list of well-formed
chapter objects, the four envelope shapes normalize to the identical
canonical mapping - the chapter list followed by the synthetic reviews
pseudo-chapter, keyed by the chapter identifier rendered as text - and that
mapping maps the key "1000000" to the sentinel pseudo-chapter.  (For the
empty chapter list the bare-array shape is unrecognizable and raises, see
the counterexample.) -/
theorem c3_chapter_envelopes_amended (b : String) (L : List JVal)
    (hne : L ≠ []) (hwf : ∀ c ∈ L, isWfChapter c = true) :
    get_chapter_info_v2_normalize (shape1 b L) =
      buildChapterDict (L ++ [sentinelChapter]) [] ∧
    get_chapter_info_v2_normalize (shape2 L) =
      buildChapterDict (L ++ [sentinelChapter]) [] ∧
    get_chapter_info_v2_normalize (shape3 b L) =
      buildChapterDict (L ++ [sentinelChapter]) [] ∧
    get_chapter_info_v2_normalize (shape4 L) =
      buildChapterDict (L ++ [sentinelChapter]) [] ∧
    ∃ d, buildChapterDict (L ++ [sentinelChapter]) [] = .ok d ∧
      objLookup d "1000000" = some sentinelChapter := by
  refine ⟨rfl, rfl, rfl, normalize_shape4 L hne hwf, ?_⟩
  have hok : ∀ c ∈ L, ∃ x, pyIndexStr c "chapterUid" = .ok x :=
    fun c hc => wfChapter_pyIndex c (hwf c hc)
  obtain ⟨d, hd⟩ := buildChapterDict_ok L [] hok
  refine ⟨dictInsert d "1000000" sentinelChapter, ?_,
    objLookup_dictInsert d "1000000" sentinelChapter⟩
  rw [buildChapterDict_append_one, hd]
  rfl

theorem c3_chapter_envelopes_amended_witness :
    get_chapter_info_v2_normalize (shape4 [JVal.obj [("chapterUid", JVal.int 7)]]) =
      buildChapterDict ([JVal.obj [("chapterUid", JVal.int 7)]] ++ [sentinelChapter]) [] ∧
    get_chapter_info_v2_normalize (shape1 "b1" [JVal.obj [("chapterUid", JVal.int 7)]]) =
      buildChapterDict ([JVal.obj [("chapterUid", JVal.int 7)]] ++ [sentinelChapter]) [] := by
  have h := c3_chapter_envelopes_amended "b1" [JVal.obj [("chapterUid", JVal.int 7)]]
    (by simp) (by decide)
  exact ⟨h.2.2.2.1, h.1⟩

/-! ### CookieCloud payload decoding (cookiecloud_client.py, lines 45-76 and
150-165): base64, UTF-8 and JSON, as used by the no-passphrase path -/

/-- Base64 value of one alphabet character. -/
def b64CharVal (c : Char) : Option Nat :=
  let n := c.toNat
  if 65 ≤ n ∧ n ≤ 90 then some (n - 65)
  else if 97 ≤ n ∧ n ≤ 122 then some (n - 97 + 26)
  else if 48 ≤ n ∧ n ≤ 57 then some (n - 48 + 52)
  else if n = 43 then some 62
  else if n = 47 then some 63
  else none

/-- Decode base64 quads to bytes (a final group of 2 or 3 values yields 1
or 2 bytes). -/
def b64DecodeQuads : List Nat → List Nat
  | a :: b :: c :: d :: rest =>
    (a * 4 + b / 16) :: ((b % 16) * 16 + c / 4) :: ((c % 4) * 64 + d) ::
      b64DecodeQuads rest
  | [a, b, c] => [a * 4 + b / 16, (b % 16) * 16 + c / 4]
  | [a, b] => [a * 4 + b / 16]
  | _ => []

/-- Python `base64.b64decode` (default non-validating mode): characters
outside the alphabet are discarded, data ends at the first padding `=`, a
data length of 1 mod 4 is invalid, and a non-multiple-of-4 length requires
enough padding characters. -/
def b64decode (s : String) : Option (List Nat) :=
  let kept := s.data.filter (fun c => (b64CharVal c).isSome || c == '=')
  let data := kept.takeWhile (fun c => !(c == '='))
  let pad := ((kept.drop data.length).takeWhile (fun c => c == '=')).length
  let vals := data.filterMap b64CharVal
  if vals.length % 4 = 1 then none
  else if (4 - vals.length % 4) % 4 ≤ pad then some (b64DecodeQuads vals)
  else none

/-- Strict UTF-8 decoding of a byte list (Python `bytes.decode("utf-8")`);
`none` on malformed sequences.  `fuel` bounds the byte consumption. -/
def utf8DecodeGo : Nat → List Nat → Option (List Char)
  | 0, [] => some []
  | 0, _ :: _ => none
  | _, [] => some []
  | fuel + 1, b :: rest =>
    if b < 0x80 then
      (utf8DecodeGo fuel rest).map (fun cs => Char.ofNat b :: cs)
    else if 0xC2 ≤ b ∧ b ≤ 0xDF then
      match rest with
      | b2 :: rest2 =>
        if 0x80 ≤ b2 ∧ b2 ≤ 0xBF then
          (utf8DecodeGo fuel rest2).map
            (fun cs => Char.ofNat ((b - 0xC0) * 64 + (b2 - 0x80)) :: cs)
        else none
      | _ => none
    else if 0xE0 ≤ b ∧ b ≤ 0xEF then
      match rest with
      | b2 :: b3 :: rest3 =>
        let lo2 := if b = 0xE0 then 0xA0 else 0x80
        let hi2 := if b = 0xED then 0x9F else 0xBF
        if (lo2 ≤ b2 ∧ b2 ≤ hi2) ∧ (0x80 ≤ b3 ∧ b3 ≤ 0xBF) then
          (utf8DecodeGo fuel rest3).map
            (fun cs =>
              Char.ofNat ((b - 0xE0) * 4096 + (b2 - 0x80) * 64 + (b3 - 0x80)) :: cs)
        else none
      | _ => none
    else if 0xF0 ≤ b ∧ b ≤ 0xF4 then
      match rest with
      | b2 :: b3 :: b4 :: rest4 =>
        let lo2 := if b = 0xF0 then 0x90 else 0x80
        let hi2 := if b = 0xF4 then 0x8F else 0xBF
        if (lo2 ≤ b2 ∧ b2 ≤ hi2) ∧ (0x80 ≤ b3 ∧ b3 ≤ 0xBF) ∧ (0x80 ≤ b4 ∧ b4 ≤ 0xBF) then
          (utf8DecodeGo fuel rest4).map
            (fun cs => Char.ofNat ((b - 0xF0) * 262144 + (b2 - 0x80) * 4096 +
              (b3 - 0x80) * 64 + (b4 - 0x80)) :: cs)
        else none
      | _ => none
    else none

/-- Python `bytes.decode("utf-8")`. -/
def utf8Decode (bs : List Nat) : Option String :=
  (utf8DecodeGo bs.length bs).map (fun cs => ⟨cs⟩)

/-- JSON whitespace skipping (space, tab, newline, carriage return). -/
def skipWs (cs : List Char) : List Char :=
  cs.dropWhile (fun c => c == ' ' || c == '\t' || c == '\n' || c == '\r')

/-- Hexadecimal digit value of a character, if any. -/
def hexVal (c : Char) : Option Nat :=
  let n := c.toNat
  if 48 ≤ n ∧ n ≤ 57 then some (n - 48)
  else if 97 ≤ n ∧ n ≤ 102 then some (n - 97 + 10)
  else if 65 ≤ n ∧ n ≤ 70 then some (n - 65 + 10)
  else none

/-- Parse the body of a JSON string after the opening quote; returns the
characters and the remaining input. -/
def parseStringBody : List Char → Option (List Char × List Char)
  | [] => none
  | '"' :: rest => some ([], rest)
  | '\\' :: esc =>
    match esc with
    | 'n' :: r => (parseStringBody r).map (fun p => ('\n' :: p.1, p.2))
    | 't' :: r => (parseStringBody r).map (fun p => ('\t' :: p.1, p.2))
    | 'r' :: r => (parseStringBody r).map (fun p => ('\r' :: p.1, p.2))
    | 'b' :: r => (parseStringBody r).map (fun p => (Char.ofNat 8 :: p.1, p.2))
    | 'f' :: r => (parseStringBody r).map (fun p => (Char.ofNat 12 :: p.1, p.2))
    | '"' :: r => (parseStringBody r).map (fun p => ('"' :: p.1, p.2))
    | '\\' :: r => (parseStringBody r).map (fun p => ('\\' :: p.1, p.2))
    | '/' :: r => (parseStringBody r).map (fun p => ('/' :: p.1, p.2))
    | 'u' :: h1 :: h2 :: h3 :: h4 :: r =>
      match hexVal h1, hexVal h2, hexVal h3, hexVal h4 with
      | some v1, some v2, some v3, some v4 =>
        (parseStringBody r).map
          (fun p => (Char.ofNat (v1 * 4096 + v2 * 256 + v3 * 16 + v4) :: p.1, p.2))
      | _, _, _, _ => none
    | _ => none
  | c :: rest =>
    if c.toNat < 0x20 then none
    else (parseStringBody rest).map (fun p => (c :: p.1, p.2))

/-- Parse a JSON integer (floats are outside the modelled fragment and are
rejected; the claims never feed a float). -/
def parseIntTok (cs : List Char) : Option (Int × List Char) :=
  let (neg, cs1) := match cs with
    | '-' :: r => (true, r)
    | _ => (false, cs)
  let digits := cs1.takeWhile isPyDigit
  let rest := cs1.drop digits.length
  if digits.isEmpty then none
  else if digits.length > 1 ∧ digits.headD '0' = '0' then none
  else
    match rest with
    | '.' :: _ => none
    | 'e' :: _ => none
    | 'E' :: _ => none
    | _ =>
      let n : Int := Int.ofNat (decToNat digits)
      some (if neg then -n else n, rest)

mutual

/-- Recursive-descent JSON value parser; `fuel` bounds nesting. -/
def parseJVal : Nat → List Char → Option (JVal × List Char)
  | 0, _ => none
  | fuel + 1, cs0 =>
    match skipWs cs0 with
    | 'n' :: 'u' :: 'l' :: 'l' :: r => some (.null, r)
    | 't' :: 'r' :: 'u' :: 'e' :: r => some (.bool true, r)
    | 'f' :: 'a' :: 'l' :: 's' :: 'e' :: r => some (.bool false, r)
    | '"' :: r => (parseStringBody r).map (fun p => (.str ⟨p.1⟩, p.2))
    | '[' :: r =>
      (match skipWs r with
       | ']' :: r2 => some (.arr [], r2)
       | _ => (parseArrItems fuel r).map (fun p => (.arr p.1, p.2)))
    | '{' :: r =>
      (match skipWs r with
       | '}' :: r2 => some (.obj [], r2)
       | _ => (parseObjItems fuel r).map (fun p => (.obj p.1, p.2)))
    | cs => (parseIntTok cs).map (fun p => (.int p.1, p.2))

/-- Comma-separated JSON array items up to the closing bracket. -/
def parseArrItems : Nat → List Char → Option (List JVal × List Char)
  | 0, _ => none
  | fuel + 1, cs =>
    match parseJVal fuel cs with
    | none => none
    | some (v, r1) =>
      match skipWs r1 with
      | ',' :: r2 => (parseArrItems fuel r2).map (fun p => (v :: p.1, p.2))
      | ']' :: r2 => some ([v], r2)
      | _ => none

/-- Comma-separated JSON object members up to the closing brace. -/
def parseObjItems : Nat → List Char → Option (List (String × JVal) × List Char)
  | 0, _ => none
  | fuel + 1, cs =>
    match skipWs cs with
    | '"' :: r =>
      (match parseStringBody r with
       | none => none
       | some (kcs, r1) =>
         match skipWs r1 with
         | ':' :: r2 =>
           (match parseJVal fuel r2 with
            | none => none
            | some (v, r3) =>
              match skipWs r3 with
              | ',' :: r4 => (parseObjItems fuel r4).map (fun p => ((⟨kcs⟩, v) :: p.1, p.2))
              | '}' :: r4 => some ([(⟨kcs⟩, v)], r4)
              | _ => none)
         | _ => none)
    | _ => none

end

/-- Python `json.loads` over the JSON fragment used by the payloads (ints,
strings, booleans, null, arrays, objects); `none` when parsing fails. -/
def json_loads (s : String) : Option JVal :=
  match parseJVal (2 * s.data.length + 2) s.data with
  | some (v, rest) => if (skipWs rest).isEmpty then some v else none
  | none => none

/-- The base64-then-JSON route of the no-passphrase branch of
`CookieCloudClient.get_cookies` (line 160):
`json.loads(base64.b64decode(cookie_data).decode("utf-8"))`, `none` when
any of the three steps raises. -/
def b64JsonRoute (s : String) : Option JVal :=
  match b64decode s with
  | none => none
  | some bytes =>
    match utf8Decode bytes with
    | none => none
    | some t => json_loads t

/-- The string-payload parsing of `CookieCloudClient.get_cookies` with no
passphrase configured (lines 150-165, `else` branch of `if self.password`):
try the base64-then-JSON route; on any failure fall back to parsing the raw
string as JSON; only if that also fails raise the unparsable-payload
error. -/
def parse_cookie_data_nopass (s : String) : Except PyErr JVal :=
  match b64JsonRoute s with
  | some v => .ok v
  | none =>
    match json_loads s with
    | some v => .ok v
    | none => .error (.exception ("无法解析 cookie_data 数据: " ++ s))

/-- `CookieCloudClient._decrypt` when pycryptodome is unavailable (lines
56-65): plain base64 decode of the payload, raising an ImportError asking
to install pycryptodome when that fails. -/
def decrypt_no_crypto (encrypted_data : String) : Except PyErr String :=
  match b64decode encrypted_data with
  | some bytes =>
    match utf8Decode bytes with
    | some t => .ok t
    | none => .error (.importError "请安装 pycryptodome: pip install pycryptodome")
  | none => .error (.importError "请安装 pycryptodome: pip install pycryptodome")

/-- C8 counterexample: with no passphrase, for the payload string
`'\x7b"a": []\x7d'` the plain base64 route fails, yet the engine does not
surface a configuration error: it parses the raw string as JSON and returns
that value. -/
theorem c8_nopass_fallback_counterexample :
    b64JsonRoute "\x7b\"a\": []\x7d" = none ∧
    parse_cookie_data_nopass "\x7b\"a\": []\x7d" =
      .ok (.obj [("a", .arr [])]) :=
  ⟨rfl, rfl⟩

/-- C8 amended: with no passphrase and a string payload, the engine first
attempts the plain base64 decode treating the result as plaintext JSON and
returns its value on success; if that route fails it additionally attempts
to parse the raw payload string itself as JSON and returns that value; only
when both attempts fail does it surface the unparsable-payload error.  When
no cryptographic capability is available, `_decrypt` falls back to a plain
base64 decode and surfaces an ImportError configuration error when that
fails. -/
theorem c8_nopass_fallback_amended :
    (∀ (s : String) (v : JVal), b64JsonRoute s = some v →
      parse_cookie_data_nopass s = .ok v) ∧
    (∀ (s : String) (v : JVal), b64JsonRoute s = none → json_loads s = some v →
      parse_cookie_data_nopass s = .ok v) ∧
    (∀ s : String, b64JsonRoute s = none → json_loads s = none →
      parse_cookie_data_nopass s =
        .error (.exception ("无法解析 cookie_data 数据: " ++ s))) ∧
    (∀ s : String, b64decode s = none →
      decrypt_no_crypto s =
        .error (.importError "请安装 pycryptodome: pip install pycryptodome")) := by
  refine ⟨?_, ?_, ?_, ?_⟩
  · intro s v h
    simp [parse_cookie_data_nopass, h]
  · intro s v h1 h2
    simp [parse_cookie_data_nopass, h1, h2]
  · intro s h1 h2
    simp [parse_cookie_data_nopass, h1, h2]
  · intro s h
    simp [decrypt_no_crypto, h]

theorem c8_nopass_fallback_amended_witness :
    parse_cookie_data_nopass "eyJhIjogW119" = .ok (.obj [("a", .arr [])]) ∧
    parse_cookie_data_nopass "\x7b\"a\": []\x7d" = .ok (.obj [("a", .arr [])]) ∧
    parse_cookie_data_nopass "####" =
      .error (.exception ("无法解析 cookie_data 数据: " ++ "####")) ∧
    decrypt_no_crypto "\x7b\"a\": []\x7d" =
      .error (.importError "请安装 pycryptodome: pip install pycryptodome") := by
  refine ⟨?_, ?_, ?_, ?_⟩
  · exact c8_nopass_fallback_amended.1 "eyJhIjogW119" (.obj [("a", .arr [])]) rfl
  · exact c8_nopass_fallback_amended.2.1 "\x7b\"a\": []\x7d" (.obj [("a", .arr [])]) rfl rfl
  · exact c8_nopass_fallback_amended.2.2.1 "####" rfl rfl
  · exact c8_nopass_fallback_amended.2.2.2 "\x7b\"a\": []\x7d" rfl
